import Mathlib

/-!
Shallow embedding of `src/chatdb.py` (syshen/chatdb): a Streamlit app that
introspects a MySQL or BigQuery schema, asks an LLM for SQL answering a user
question, executes the SQL and renders the result.

Python values that flow through the question pipeline are modelled by `Json`;
Python exceptions (KeyError, TypeError, IndexError, json.JSONDecodeError,
`raise Exception(...)`, AttributeError) become the `Fault` type, and every
function that can raise returns `Except Fault _`.  Streamlit display calls
(`st.error`, `st.line_chart`, `st.metric`, expanders ...) are recorded as
`RenderAction`s in the order the script issues them.
-/

set_option autoImplicit false

namespace ChatDB

/-- JSON values (the shapes `json.loads` can produce; floats are not needed by
any claim, so numbers are integers).  Python dicts are association lists: after
`json.loads` keys are unique, lookups take the first match. -/
inductive Json where
  | null : Json
  | bool (b : Bool) : Json
  | num (n : Int) : Json
  | str (s : String) : Json
  | arr (elems : List Json) : Json
  | obj (fields : List (String × Json)) : Json
deriving Repr

/-- Python `v == s` for a string literal `s`: only a `str` of equal contents
compares equal; every other value compares unequal (no exception). -/
def jsonEqStr (v : Json) (s : String) : Bool :=
  match v with
  | .str t => t == s
  | _ => false

/-- Python `v is True`: identity with the `True` singleton. -/
def jsonIsTrue (v : Json) : Bool :=
  match v with
  | .bool b => b
  | _ => false

/-- The Python exceptions the script can raise, plus the driver-level error a
bad metadata query would produce. -/
inductive Fault where
  | jsonDecodeError : Fault
  | keyError (k : String) : Fault
  | typeError : Fault
  | valueError : Fault
  | indexError : Fault
  | attributeError : Fault
  | exceptionMsg (m : String) : Fault
  | operationalError : Fault
deriving Repr, DecidableEq

/-- A materialized pandas DataFrame: named columns and a list of rows. -/
structure Table where
  columns : List String
  rows : List (List Json)
deriving Repr

/-- Python `d[k]`: key lookup on a dict; indexing any other JSON value with a
string key raises TypeError (strings and lists demand integer indices). -/
def dictGet (v : Json) (k : String) : Except Fault Json :=
  match v with
  | .obj kvs =>
    match kvs.lookup k with
    | some x => .ok x
    | none => .error (.keyError k)
  | _ => .error .typeError

/-- Python `k in v`: key membership for dicts, substring test for strings,
element membership for lists; TypeError on non-container values. -/
def pyContains (k : String) (v : Json) : Except Fault Bool :=
  match v with
  | .obj kvs => .ok (kvs.lookup k).isSome
  | .str s => .ok (if k == "" then true else (s.splitOn k).length > 1)
  | .arr xs => .ok (xs.any (fun x => jsonEqStr x k))
  | _ => .error .typeError

/-- `data.columns[i]` on a DataFrame: positional access, IndexError when out of
range. -/
def colName (t : Table) (i : Nat) : Except Fault String :=
  match t.columns.get? i with
  | some c => .ok c
  | none => .error .indexError

/-- Cell `i` of every row, in order (IndexError on a row too short to have the
column). -/
def readColumn (i : Nat) : List (List Json) → Except Fault (List Json)
  | [] => .ok []
  | r :: rs =>
    match r.get? i with
    | none => .error .indexError
    | some v => (readColumn i rs).map (fun vs => v :: vs)

/-- `data[name]` as plotly uses it: find the first column with that name and
read it out of every row. -/
def colValues (t : Table) (name : String) : Except Fault (List Json) :=
  match t.columns.findIdx? (fun c => c == name) with
  | none => .error (.keyError name)
  | some i => readColumn i t.rows

/-- `data.values.flatten()`: all cells row-major. -/
def flattenValues (t : Table) : List Json :=
  t.rows.flatten

/-! ## Database model

The MySQL server visible through the connection: a list of databases, each a
list of tables with their `SHOW CREATE TABLE` text.  The connection also keeps
the session's current database, set by `USE`; the metadata statements the
script issues are read-only, so they never change `databases`. -/

/-- One MySQL table: its name and the create statement that
`SHOW CREATE TABLE` returns in its second column. -/
structure TableInfo where
  name : String
  createStmt : String
deriving Repr, DecidableEq

/-- One MySQL database: its name and its tables. -/
structure DbInfo where
  name : String
  tables : List TableInfo
deriving Repr, DecidableEq

/-- The observable state of a MySQL connection. -/
structure MySQLState where
  databases : List DbInfo
  currentDb : Option String
deriving Repr, DecidableEq

/-- The metadata statements `collectDBInfo` sends through
`db_conn.execute(text(...))`. -/
inductive DbQuery where
  | showDatabases : DbQuery
  | useDb (name : String) : DbQuery
  | showTables : DbQuery
  | showCreateTable (name : String) : DbQuery
deriving Repr, DecidableEq

/-- `db_conn.execute(q).fetchall()`: rows of strings, plus the connection state
after the statement.  `USE` fails on an unknown database; `SHOW tables` and
`SHOW CREATE TABLE` fail without a usable current database — the driver raises,
modelled as `operationalError`. -/
def execQuery (q : DbQuery) (st : MySQLState) :
    Except Fault (List (List String) × MySQLState) :=
  match q with
  | .showDatabases => .ok (st.databases.map (fun d => [d.name]), st)
  | .useDb n =>
    if st.databases.any (fun d => d.name == n) then
      .ok ([], { st with currentDb := some n })
    else
      .error .operationalError
  | .showTables =>
    match st.currentDb with
    | none => .error .operationalError
    | some n =>
      match st.databases.find? (fun d => d.name == n) with
      | none => .error .operationalError
      | some d => .ok (d.tables.map (fun t => [t.name]), st)
  | .showCreateTable tn =>
    match st.currentDb with
    | none => .error .operationalError
    | some n =>
      match st.databases.find? (fun d => d.name == n) with
      | none => .error .operationalError
      | some d =>
        match d.tables.find? (fun t => t.name == tn) with
        | none => .error .operationalError
        | some t => .ok ([[t.name, t.createStmt]], st)

/-- chatdb.py line 77: the denylist of system schemas. -/
def mysql_system_databases : List String :=
  ["information_schema", "mysql", "sys", "performance_schema"]

/-- chatdb.py lines 81-85: build `db_list` from the `SHOW databases` rows,
keeping `row[0]` whenever it is not a system schema (`row[0]` on an empty row
would be an IndexError). -/
def buildDbList : List (List String) → Except Fault (List String)
  | [] => .ok []
  | r :: rs =>
    match r.get? 0 with
    | none => .error .indexError
    | some n =>
      (buildDbList rs).map (fun rest =>
        if n ∈ mysql_system_databases then rest else n :: rest)

/-- chatdb.py lines 92-98: the inner loop over the `SHOW tables` rows of one
database; for each row runs `SHOW CREATE TABLE row[0]`, reads the schema out of
`columns[0][1]`, and appends a `Table:`/`Schema:` block. -/
def collectTablesInfo : MySQLState → List (List String) →
    Except Fault (String × MySQLState)
  | st, [] => .ok ("", st)
  | st, row :: rest =>
    match row.get? 0 with
    | none => .error .indexError
    | some table =>
      match execQuery (.showCreateTable table) st with
      | .error f => .error f
      | .ok (columns, st1) =>
        match columns.get? 0 with
        | none => .error .indexError
        | some col0 =>
          match col0.get? 1 with
          | none => .error .indexError
          | some schema =>
            match collectTablesInfo st1 rest with
            | .error f => .error f
            | .ok (restInfo, st2) =>
              .ok ("Table: " ++ table ++ "\n" ++ "Schema: " ++ schema ++ "\n\n"
                    ++ restInfo, st2)

/-- chatdb.py lines 88-100: the outer loop over `db_list`; per database runs
`USE db`, `SHOW tables`, emits the `Database:` header, the table blocks and the
separator line. -/
def collectDbsInfo : MySQLState → List String → Except Fault (String × MySQLState)
  | st, [] => .ok ("", st)
  | st, db :: rest =>
    match execQuery (.useDb db) st with
    | .error f => .error f
    | .ok (_, st1) =>
      match execQuery .showTables st1 with
      | .error f => .error f
      | .ok (tableRows, st2) =>
        match collectTablesInfo st2 tableRows with
        | .error f => .error f
        | .ok (tablesInfo, st3) =>
          match collectDbsInfo st3 rest with
          | .error f => .error f
          | .ok (restInfo, st4) =>
            .ok ("Database: " ++ db ++ "\n\n" ++ tablesInfo
                  ++ "--------------\n" ++ restInfo, st4)

/-- chatdb.py lines 77-102: the MySQL arm of `collectDBInfo` run against a live
connection: `SHOW databases`, filter the denylist, then the per-database loop. -/
def collectDBInfoMySQL (st : MySQLState) : Except Fault (String × MySQLState) :=
  match execQuery .showDatabases st with
  | .error f => .error f
  | .ok (dbRows, st1) =>
    match buildDbList dbRows with
    | .error f => .error f
    | .ok dbList => collectDbsInfo st1 dbList

/-! ## BigQuery model -/

/-- A BigQuery schema field, as `get_table(...).schema` yields it. -/
structure BQField where
  name : String
  field_type : String
deriving Repr, DecidableEq

/-- A BigQuery client: the project metadata visible through `get_table`
(full table id `dataset.table` to schema), and the query endpoint used by
`loadData` (`client.query(sql)`, whose job result the script drops). -/
structure BQClient where
  tables : List (String × List BQField)
  queryFn : String → Table

/-- `client.get_table(id).schema`: metadata lookup; an unknown table raises
google.api_core NotFound. -/
def bqGetTableSchema (c : BQClient) (id : String) : Except Fault (List BQField) :=
  match c.tables.lookup id with
  | some s => .ok s
  | none => .error (.exceptionMsg "NotFound")

/-- chatdb.py lines 60-70, `_collectBigQueryTableInfo`: for each listed table,
fetch `{dataset}.{table}`'s schema and append a `Table:`/`Schema:` block with
one ` - name (type)` line per field. -/
def collectBigQueryTableInfo (c : BQClient) (dataset : String) :
    List String → Except Fault String
  | [] => .ok ""
  | table :: rest =>
    match bqGetTableSchema c (dataset ++ "." ++ table) with
    | .error f => .error f
    | .ok schema =>
      let fieldLines := schema.foldl
        (fun acc f => acc ++ " - " ++ f.name ++ " (" ++ f.field_type ++ ")\n") ""
      match collectBigQueryTableInfo c dataset rest with
      | .error f => .error f
      | .ok restInfo =>
        .ok ("Table: " ++ table ++ "\n" ++ "Schema:\n" ++ fieldLines ++ "\n"
              ++ restInfo)

/-! ## Connections and the dispatchers -/

/-- A live connection handle: either a SQLAlchemy MySQL connection (its
observable metadata state plus the data-query endpoint `pd.read_sql` uses) or a
BigQuery client. -/
inductive Conn where
  | mysql (st : MySQLState) (dataQuery : String → Table) : Conn
  | bigquery (client : BQClient) : Conn

/-- chatdb.py lines 73-102, `collectDBInfo`: dispatch on `db_type`.  The
BigQuery arm calls `db_conn.get_table` with no null check (AttributeError on
`None` or on a connection of the wrong kind); the relational arm raises
`Exception("Not connect to any database.")` on `None`.  Returns the schema text
together with the connection as the call leaves it. -/
def collectDBInfo (db_conn : Option Conn) (db_type : String)
    (bigquery_dataset : String) (bigquery_tables : List String) :
    Except Fault (String × Option Conn) :=
  if db_type == "BigQuery" then
    match db_conn with
    | some (.bigquery c) =>
      (collectBigQueryTableInfo c bigquery_dataset bigquery_tables).map
        (fun s => (s, db_conn))
    | _ => .error .attributeError
  else
    match db_conn with
    | none => .error (.exceptionMsg "Not connect to any database.")
    | some (.mysql st dq) =>
      (collectDBInfoMySQL st).map (fun p => (p.1, some (.mysql p.2 dq)))
    | some (.bigquery _) => .error .attributeError

/-- chatdb.py lines 107-115, `loadData`: `None` connection raises; the BigQuery
arm runs `db_conn.query(query)` and prints the job but falls off the end of the
function — it returns Python `None`, not the results; the relational arm
returns the DataFrame `pd.read_sql(query, con=db_conn)` materializes
(`pd.read_sql` with a non-string statement raises). -/
def loadData (db_conn : Option Conn) (db_type : String) (query : Json) :
    Except Fault (Option Table) :=
  match db_conn with
  | none => .error (.exceptionMsg "Not connect to any database.")
  | some conn =>
    if db_type == "BigQuery" then
      match conn with
      | .bigquery c =>
        match query with
        | .str q =>
          let _results := c.queryFn q
          .ok none
        | _ => .error .typeError
      | .mysql _ _ => .error .attributeError
    else
      match conn with
      | .mysql _ dq =>
        match query with
        | .str q => .ok (some (dq q))
        | _ => .error .typeError
      | .bigquery _ => .error .attributeError

/-! ## Rendering (chatdb.py lines 190-211) -/

/-- Groups of three characters taken from the front of the list. -/
def chunksOf3 : List Char → List (List Char)
  | a :: b :: c :: rest => [a, b, c] :: chunksOf3 rest
  | [] => []
  | l => [l]

/-- `format(m, ",")` for a nonnegative integer: the decimal digits with a
thousands separator every three digits from the right. -/
def groupComma (m : Nat) : String :=
  String.mk
    (String.intercalate ","
      ((chunksOf3 (toString m).data.reverse).map String.mk)).data.reverse

/-- Python `f"{v:,}"` — `format(v, ",")` applied to the first cell at
chatdb.py line 205.  An int formats with thousands separators (a Python bool
is an int subclass, formatting as `1`/`0`); a str raises
`ValueError: Cannot specify ',' with 's'.`; `None` and composite values have
no numeric `__format__`, so a non-empty format spec raises TypeError. -/
def pyFormatComma : Json → Except Fault String
  | .num n => .ok (if n < 0 then "-" ++ groupComma n.natAbs else groupComma n.natAbs)
  | .bool b => .ok (if b then "1" else "0")
  | .str _ => .error .valueError
  | _ => .error .typeError

/-- The Streamlit display calls the question-handling block can issue, in
order.  `metric` carries the label `data.columns[0]` and the already
formatted value string of `f"{data.values.flatten()[0]:,}"`. -/
inductive RenderAction where
  | errorMsg (v : Json) : RenderAction
  | lineChart (data : Table) (x y : String) : RenderAction
  | barChart (data : Table) (x y : String) : RenderAction
  | pieChart (names values : List Json) : RenderAction
  | metric (label : String) (value : String) : RenderAction
  | rawData (data : Option Table) : RenderAction
  | gptResponse (content : Json) : RenderAction
deriving Repr

/-- chatdb.py lines 191-197: the `diagram_type` dispatch.  `st.line_chart` and
`st.bar_chart` read `data.columns[0]` and `data.columns[1]` (left to right);
`px.pie` reads `data.columns[1]` as the values column and `data.columns[0]` as
the names column and pulls both columns out of the frame.  `data` is `None`
for the BigQuery backend, so any attribute access on it is an AttributeError.
A `diagram_type` outside line/bar/pie falls through every branch and renders
nothing. -/
def chartFor (dt : Json) (data : Option Table) : Except Fault (List RenderAction) :=
  if jsonEqStr dt "line" then
    match data with
    | none => .error .attributeError
    | some t =>
      match colName t 0 with
      | .error f => .error f
      | .ok x =>
        match colName t 1 with
        | .error f => .error f
        | .ok y => .ok [.lineChart t x y]
  else if jsonEqStr dt "bar" then
    match data with
    | none => .error .attributeError
    | some t =>
      match colName t 0 with
      | .error f => .error f
      | .ok x =>
        match colName t 1 with
        | .error f => .error f
        | .ok y => .ok [.barChart t x y]
  else if jsonEqStr dt "pie" then
    match data with
    | none => .error .attributeError
    | some t =>
      match colName t 1 with
      | .error f => .error f
      | .ok vname =>
        match colName t 0 with
        | .error f => .error f
        | .ok nname =>
          match colValues t vname with
          | .error f => .error f
          | .ok values =>
            match colValues t nname with
            | .error f => .error f
            | .ok names => .ok [.pieChart names values]
  else
    .ok []

/-- chatdb.py lines 190-211: the rendering block after `loadData`.  The chart
branch is taken exactly when `content["diagram_available"] == "yes" or
content["diagram_available"] is True`; it dispatches on
`content["diagram_type"]` and then shows the raw-data and GPT-response
expanders.  The other branch shows `st.metric(data.columns[0],
value=f"{data.values.flatten()[0]:,}")` and the same two expanders; its
arguments evaluate left to right — `data.columns[0]`, then the cell
`data.values.flatten()[0]`, then the `:,` format, which raises on
non-numeric cells — so a format fault escapes before anything is shown. -/
def renderBlock (content : Json) (data : Option Table) :
    Except Fault (List RenderAction) :=
  match dictGet content "diagram_available" with
  | .error f => .error f
  | .ok da =>
    if jsonEqStr da "yes" || jsonIsTrue da then
      match dictGet content "diagram_type" with
      | .error f => .error f
      | .ok dt =>
        match chartFor dt data with
        | .error f => .error f
        | .ok charts => .ok (charts ++ [.rawData data, .gptResponse content])
    else
      match data with
      | none => .error .attributeError
      | some t =>
        match colName t 0 with
        | .error f => .error f
        | .ok label =>
          match (flattenValues t).get? 0 with
          | none => .error .indexError
          | some v =>
            match pyFormatComma v with
            | .error f => .error f
            | .ok fv => .ok [.metric label fv, .rawData data, .gptResponse content]

/-! ## The question pipeline (chatdb.py lines 168-215) -/

/-- Python `str.join`'s element traversal: every element must be a string
(TypeError otherwise). -/
def strElems : List Json → Except Fault (List String)
  | [] => .ok []
  | e :: es =>
    match e with
    | .str s => (strElems es).map (fun rest => s :: rest)
    | _ => .error .typeError

/-- chatdb.py lines 182-185: `" ".join(codes)` when `SQL_codes` is a list
(TypeError on a non-string element, like Python's `str.join`); any other value
is used as the statement unchanged. -/
def normalizeSqlCodes (codes : Json) : Except Fault Json :=
  match codes with
  | .arr elems =>
    (strElems elems).map (fun parts => Json.str (String.intercalate " " parts))
  | v => .ok v

/-- chatdb.py lines 182-185 applied to the parsed content: read
`content["SQL_codes"]` (KeyError when absent) and normalize it into the one
statement handed to `loadData`. -/
def sqlToRun (content : Json) : Except Fault Json :=
  match dictGet content "SQL_codes" with
  | .error f => .error f
  | .ok codes => normalizeSqlCodes codes

/-- chatdb.py lines 178-211: handling of one successfully parsed response
body.  `if 'error' in content` shows the message and returns before
`SQL_codes` is read or the connection touched; otherwise the SQL is
normalized, executed via `loadData`, and the result rendered. -/
def processContent (conn : Conn) (db_type : String) (content : Json) :
    Except Fault (List RenderAction) :=
  match pyContains "error" content with
  | .error f => .error f
  | .ok hasError =>
    if hasError then
      match dictGet content "error" with
      | .error f => .error f
      | .ok e => .ok [.errorMsg e]
    else
      match sqlToRun content with
      | .error f => .error f
      | .ok sql =>
        match loadData (some conn) db_type sql with
        | .error f => .error f
        | .ok data => renderBlock content data

/-- One choice of the completion response; `content` is the result of
`json.loads(choice["message"]["content"])`: `some v` when the body parses to
`v`, `none` when `json.loads` raises `JSONDecodeError`. -/
structure Choice where
  content : Option Json

/-- The object `openai.ChatCompletion.create` returns, reduced to the field
the script reads. -/
structure ApiResponse where
  choices : List Choice

/-- chatdb.py lines 175-215: processing of one question once a connection
exists.  `if response and response["choices"] and len(...) > 0` guards the
generic "No valid response" message; inside the guard `json.loads` runs with
no handler, so a body that is not valid JSON raises straight out of `main`. -/
def handleQuestion (conn : Conn) (db_type : String)
    (response : Option ApiResponse) : Except Fault (List RenderAction) :=
  match response with
  | none => .ok [.errorMsg (.str "No valid response")]
  | some r =>
    match r.choices with
    | [] => .ok [.errorMsg (.str "No valid response")]
    | c :: _ =>
      match c.content with
      | none => .error .jsonDecodeError
      | some content => processContent conn db_type content

/-! ## Connection setup (chatdb.py lines 46-55 and 158-165) -/

/-- chatdb.py lines 46-55, `connectDB`.  The BigQuery arm parses the
credentials JSON with no handler (`jsonDecodeError` when `json.loads` raises)
and returns a client.  The relational arm wraps `create_engine(...).connect()`
in `try/except`: `attempt` is `some` of the live connection when the connect
succeeds and `none` when it raises (unreachable host, bad credentials), in
which case `st.error(...)` is shown and the function falls through returning
Python `None`. -/
def connectDB (db_type : String) (host port : String)
    (attempt : Option (MySQLState × (String → Table)))
    (bqClient : Option BQClient) :
    Except Fault (Option Conn × List RenderAction) :=
  if db_type == "BigQuery" then
    match bqClient with
    | none => .error .jsonDecodeError
    | some c => .ok (some (.bigquery c), [])
  else
    match attempt with
    | some (st, dq) => .ok (some (.mysql st dq), [])
    | none =>
      .ok (none,
        [.errorMsg (.str ("Failed to connect to the database mydb on server "
          ++ host ++ " at port " ++ port
          ++ ". Please check your network connection and try again."))])

/-- chatdb.py lines 158-161: the MySQL configuration stage of `main` — once
all four fields are filled, `connectDB` then `collectDBInfo` on whatever it
returned.  Yields the Streamlit calls already shown, and either the connection
plus schema text or the fault that escaped the stage. -/
def mysqlConfigStage (host port : String)
    (attempt : Option (MySQLState × (String → Table))) :
    List RenderAction × Except Fault (Option Conn × String) :=
  match connectDB "MySQL" host port attempt none with
  | .error f => ([], .error f)
  | .ok (connOpt, acts) =>
    (acts, (collectDBInfo connOpt "MySQL" "" []).map (fun p => (p.2, p.1)))

/-! ## Concrete fixtures used by witnesses and counterexamples -/

/-- A data-query endpoint answering every statement with the one-cell frame
`[[42]]` under column `n`. -/
def dq0 : String → Table := fun _ => ⟨["n"], [[.num 42]]⟩

/-- A live MySQL connection over an empty server. -/
def conn0 : Conn := .mysql ⟨[], none⟩ dq0

/-- A BigQuery client with no tables. -/
def bq0 : BQClient := ⟨[], dq0⟩

/-- The one-cell result table `[[42]]` under column `n`. -/
def t42 : Table := ⟨["n"], [[.num 42]]⟩

/-- Python's built-in truthiness (`bool(v)`): the reading of the word
"truthy" in the claims.  This follows the claim's wording, for comparison
against the source's actual branch test, which is
`jsonEqStr da "yes" || jsonIsTrue da` (chatdb.py line 190). -/
def pythonTruthy : Json → Bool
  | .null => false
  | .bool b => b
  | .num n => n != 0
  | .str s => s != ""
  | .arr xs => !xs.isEmpty
  | .obj kvs => !kvs.isEmpty

/-! ## Supporting lemmas -/

theorem readColumn_pairs_fst (pairs : List (Json × Json)) :
    readColumn 0 (pairs.map (fun p => [p.1, p.2])) = .ok (pairs.map Prod.fst) := by
  induction pairs with
  | nil => rfl
  | cons p ps ih => simp [readColumn, ih, Except.map]

theorem readColumn_pairs_snd (pairs : List (Json × Json)) :
    readColumn 1 (pairs.map (fun p => [p.1, p.2])) = .ok (pairs.map Prod.snd) := by
  induction pairs with
  | nil => rfl
  | cons p ps ih => simp [readColumn, ih, Except.map]

theorem execQuery_useDb_databases {n : String} {st : MySQLState}
    {r : List (List String)} {st1 : MySQLState}
    (h : execQuery (.useDb n) st = .ok (r, st1)) : st1.databases = st.databases := by
  simp only [execQuery] at h
  split at h
  · simp only [Except.ok.injEq, Prod.mk.injEq] at h
    rw [← h.2]
  · cases h

theorem execQuery_showTables_state {st : MySQLState}
    {r : List (List String)} {st1 : MySQLState}
    (h : execQuery .showTables st = .ok (r, st1)) : st1 = st := by
  simp only [execQuery] at h
  repeat' split at h
  all_goals try cases h
  all_goals rfl

theorem execQuery_showCreateTable_state {tn : String} {st : MySQLState}
    {r : List (List String)} {st1 : MySQLState}
    (h : execQuery (.showCreateTable tn) st = .ok (r, st1)) : st1 = st := by
  simp only [execQuery] at h
  repeat' split at h
  all_goals try cases h
  all_goals rfl

theorem collectTablesInfo_state (rows : List (List String)) :
    ∀ (st : MySQLState) (o : String) (st1 : MySQLState),
      collectTablesInfo st rows = .ok (o, st1) → st1 = st := by
  induction rows with
  | nil =>
    intro st o st1 h
    simp only [collectTablesInfo, Except.ok.injEq, Prod.mk.injEq] at h
    exact h.2.symm
  | cons row rest ih =>
    intro st o st1 h
    simp only [collectTablesInfo] at h
    split at h
    · cases h
    split at h
    · cases h
    next columns stA hq =>
    split at h
    · cases h
    split at h
    · cases h
    split at h
    · cases h
    next restInfo stB h3 =>
    simp only [Except.ok.injEq, Prod.mk.injEq] at h
    rw [← h.2, ih stA restInfo stB h3, execQuery_showCreateTable_state hq]

theorem collectDbsInfo_databases (names : List String) :
    ∀ (st : MySQLState) (o : String) (st1 : MySQLState),
      collectDbsInfo st names = .ok (o, st1) → st1.databases = st.databases := by
  induction names with
  | nil =>
    intro st o st1 h
    simp only [collectDbsInfo, Except.ok.injEq, Prod.mk.injEq] at h
    rw [← h.2]
  | cons db rest ih =>
    intro st o st1 h
    simp only [collectDbsInfo] at h
    split at h
    · cases h
    next r0 stA hu =>
    split at h
    · cases h
    next tableRows stB ht =>
    split at h
    · cases h
    next tablesInfo stC hc =>
    split at h
    · cases h
    next restInfo stD hr =>
    simp only [Except.ok.injEq, Prod.mk.injEq] at h
    rw [← h.2]
    rw [ih stC restInfo stD hr, collectTablesInfo_state tableRows stB tablesInfo stC hc,
      execQuery_showTables_state ht, execQuery_useDb_databases hu]

theorem collectDbsInfo_map_fst (names : List String) (st1 st2 : MySQLState)
    (h : st1.databases = st2.databases) :
    (collectDbsInfo st1 names).map Prod.fst = (collectDbsInfo st2 names).map Prod.fst := by
  cases names with
  | nil => rfl
  | cons db rest =>
    simp only [collectDbsInfo, execQuery]
    rw [h]

theorem collectDBInfoMySQL_databases {st : MySQLState} {o : String} {st1 : MySQLState}
    (h : collectDBInfoMySQL st = .ok (o, st1)) : st1.databases = st.databases := by
  simp only [collectDBInfoMySQL, execQuery] at h
  cases hb : buildDbList (st.databases.map fun d => [d.name]) with
  | error f => rw [hb] at h; cases h
  | ok dbl =>
    rw [hb] at h
    exact collectDbsInfo_databases dbl st o st1 h

theorem collectDBInfoMySQL_map_fst {st1 st2 : MySQLState}
    (h : st1.databases = st2.databases) :
    (collectDBInfoMySQL st1).map Prod.fst = (collectDBInfoMySQL st2).map Prod.fst := by
  simp only [collectDBInfoMySQL, execQuery]
  rw [h]
  cases hb : buildDbList (st2.databases.map fun d => [d.name]) with
  | error f => rfl
  | ok dbl => exact collectDbsInfo_map_fst dbl st1 st2 h

theorem renderBlock_unrecognized {kvs : List (String × Json)} {da dt : Json}
    (hda : kvs.lookup "diagram_available" = some da)
    (hcond : (jsonEqStr da "yes" || jsonIsTrue da) = true)
    (hdt : kvs.lookup "diagram_type" = some dt)
    (hl : jsonEqStr dt "line" = false) (hb : jsonEqStr dt "bar" = false)
    (hp : jsonEqStr dt "pie" = false) (data : Option Table) :
    renderBlock (.obj kvs) data = .ok [.rawData data, .gptResponse (.obj kvs)] := by
  simp [renderBlock, dictGet, hda, hcond, hdt, chartFor, hl, hb, hp]

theorem renderBlock_line {kvs : List (String × Json)} {da dt : Json}
    (hda : kvs.lookup "diagram_available" = some da)
    (hcond : (jsonEqStr da "yes" || jsonIsTrue da) = true)
    (hdt : kvs.lookup "diagram_type" = some dt)
    (hl : jsonEqStr dt "line" = true)
    {t : Table} {c0 c1 : String} {cs : List String}
    (hc : t.columns = c0 :: c1 :: cs) :
    renderBlock (.obj kvs) (some t) =
      .ok [.lineChart t c0 c1, .rawData (some t), .gptResponse (.obj kvs)] := by
  simp [renderBlock, dictGet, hda, hcond, hdt, chartFor, hl, colName, hc]

theorem renderBlock_metric {kvs : List (String × Json)} {da : Json}
    (hda : kvs.lookup "diagram_available" = some da)
    (hcond : (jsonEqStr da "yes" || jsonIsTrue da) = false)
    {t : Table} {c : String} {cs : List String} {v : Json} {vs : List Json}
    {fv : String}
    (hc : t.columns = c :: cs) (hv : flattenValues t = v :: vs)
    (hf : pyFormatComma v = .ok fv) :
    renderBlock (.obj kvs) (some t) =
      .ok [.metric c fv, .rawData (some t), .gptResponse (.obj kvs)] := by
  simp [renderBlock, dictGet, hda, hcond, colName, hc, hv, hf]

theorem renderBlock_metric_format_fault {kvs : List (String × Json)} {da : Json}
    (hda : kvs.lookup "diagram_available" = some da)
    (hcond : (jsonEqStr da "yes" || jsonIsTrue da) = false)
    {t : Table} {c : String} {cs : List String} {v : Json} {vs : List Json}
    {f : Fault}
    (hc : t.columns = c :: cs) (hv : flattenValues t = v :: vs)
    (hf : pyFormatComma v = .error f) :
    renderBlock (.obj kvs) (some t) = .error f := by
  simp [renderBlock, dictGet, hda, hcond, colName, hc, hv, hf]

theorem renderBlock_metric_no_columns {kvs : List (String × Json)} {da : Json}
    (hda : kvs.lookup "diagram_available" = some da)
    (hcond : (jsonEqStr da "yes" || jsonIsTrue da) = false)
    {t : Table} (hc : t.columns = []) :
    renderBlock (.obj kvs) (some t) = .error .indexError := by
  simp [renderBlock, dictGet, hda, hcond, colName, hc]

theorem renderBlock_metric_no_cells {kvs : List (String × Json)} {da : Json}
    (hda : kvs.lookup "diagram_available" = some da)
    (hcond : (jsonEqStr da "yes" || jsonIsTrue da) = false)
    {t : Table} {c : String} {cs : List String}
    (hc : t.columns = c :: cs) (hv : flattenValues t = []) :
    renderBlock (.obj kvs) (some t) = .error .indexError := by
  simp [renderBlock, dictGet, hda, hcond, colName, hc, hv]

theorem strElems_map_str (parts : List String) :
    strElems (parts.map Json.str) = .ok parts := by
  induction parts with
  | nil => rfl
  | cons p ps ih => simp [strElems, ih, Except.map]

theorem buildDbList_excludes (rows : List (List String)) (dbl : List String)
    (h : buildDbList rows = .ok dbl) :
    ∀ d ∈ mysql_system_databases, d ∉ dbl := by
  induction rows generalizing dbl with
  | nil =>
    simp only [buildDbList, Except.ok.injEq] at h
    subst h
    simp
  | cons r rs ih =>
    simp only [buildDbList] at h
    cases hr : r.get? 0 with
    | none => rw [hr] at h; cases h
    | some n =>
      rw [hr] at h
      cases hb : buildDbList rs with
      | error f => rw [hb] at h; cases h
      | ok rest =>
        rw [hb] at h
        simp only [Except.map, Except.ok.injEq] at h
        subst h
        intro d hd
        by_cases hc : n ∈ mysql_system_databases
        · rw [if_pos hc]; exact ih rest hb d hd
        · rw [if_neg hc]
          intro hmem
          rcases List.mem_cons.mp hmem with rfl | hmem2
          · exact hc hd
          · exact ih rest hb d hd hmem2

/-! ## Claim theorems -/

/-- C3: the claim says both backends yield a materialized `QueryResult` to the
renderer.  The relational arm does, but `loadData`'s BigQuery arm runs the
query and falls off the end of the function with no `return`, so the renderer
receives Python `None` — and the metric path then faults on
`None.columns` — even though `main` consumes `data` identically for both
backends.  The claim states the intended behaviour; the missing `return` is
the code bug. -/
theorem c3_bigquery_loadData_returns_none :
    (∀ (st : MySQLState) (dq : String → Table) (q : String),
      loadData (some (.mysql st dq)) "MySQL" (.str q) = .ok (some (dq q))) ∧
    (∀ (c : BQClient) (q : String),
      loadData (some (.bigquery c)) "BigQuery" (.str q) = .ok none) ∧
    (∀ c : BQClient,
      processContent (.bigquery c) "BigQuery"
        (.obj [("SQL_codes", .str "SELECT 1"), ("diagram_available", .bool false)]) =
      .error .attributeError) :=
  ⟨fun _ _ _ => rfl, fun _ _ => rfl, fun _ => rfl⟩

/-- C5: a parsed response body that contains an `error` key short-circuits:
the shown actions are exactly the one error message, and — since the
right-hand side does not mention `conn` — the outcome is independent of the
connection: no SQL is executed and nothing touches the database. -/
theorem c5_error_short_circuits (conn : Conn) (db_type : String)
    (kvs : List (String × Json)) (e : Json)
    (h : kvs.lookup "error" = some e) :
    processContent conn db_type (.obj kvs) = .ok [.errorMsg e] := by
  simp [processContent, pyContains, dictGet, h]

/-- Witness for C5 at a concrete refusal body. -/
theorem c5_witness :
    processContent conn0 "MySQL" (.obj [("error", .str "I cannot run that")]) =
      .ok [.errorMsg (.str "I cannot run that")] :=
  c5_error_short_circuits conn0 "MySQL" _ _ rfl

/-- C6: `SQL_codes` normalization.  A list of strings is joined with single
spaces, a plain string runs unchanged; the third conjunct shows the joined
statement end-to-end: it is exactly the string handed to the connection's
query endpoint `dq`. -/
theorem c6_sql_normalization :
    (∀ (parts : List String) (kvs : List (String × Json)),
      kvs.lookup "SQL_codes" = some (.arr (parts.map Json.str)) →
      sqlToRun (.obj kvs) = .ok (.str (String.intercalate " " parts))) ∧
    (∀ (s : String) (kvs : List (String × Json)),
      kvs.lookup "SQL_codes" = some (.str s) →
      sqlToRun (.obj kvs) = .ok (.str s)) ∧
    (∀ (parts : List String) (st : MySQLState) (dq : String → Table),
      processContent (.mysql st dq) "MySQL"
        (.obj [("SQL_codes", .arr (parts.map Json.str)),
               ("diagram_available", .str "yes"), ("diagram_type", .str "none")]) =
      .ok [.rawData (some (dq (String.intercalate " " parts))),
           .gptResponse (.obj [("SQL_codes", .arr (parts.map Json.str)),
               ("diagram_available", .str "yes"), ("diagram_type", .str "none")])]) := by
  refine ⟨?_, ?_, ?_⟩
  · intro parts kvs h
    simp [sqlToRun, dictGet, h, normalizeSqlCodes, strElems_map_str, Except.map]
  · intro s kvs h
    simp [sqlToRun, dictGet, h, normalizeSqlCodes]
  · intro parts st dq
    simp [processContent, pyContains, sqlToRun, dictGet, normalizeSqlCodes,
      strElems_map_str, Except.map, loadData, renderBlock, chartFor,
      jsonEqStr, jsonIsTrue, List.lookup]

/-- Witness for C6 on the spec's own example list. -/
theorem c6_witness :
    sqlToRun (.obj [("SQL_codes", .arr [.str "SELECT a", .str "FROM t"])]) =
      .ok (.str "SELECT a FROM t") :=
  c6_sql_normalization.1 ["SELECT a", "FROM t"] _ rfl

/-- C7: no denylisted system schema ever enters `db_list`, the list of
enumerated databases from which `collectDbsInfo` generates every
`Database:` block of the SchemaDescription text. -/
theorem c7_denylist_never_enumerated (rows : List (List String)) (dbl : List String)
    (h : buildDbList rows = .ok dbl) :
    ∀ d ∈ mysql_system_databases, d ∉ dbl :=
  buildDbList_excludes rows dbl h

/-- Witness for C7: a server listing two system schemas and one user database
enumerates only the user database, and no denylisted name is in the list. -/
theorem c7_witness :
    buildDbList [["information_schema"], ["shop"], ["mysql"]] = .ok ["shop"] ∧
      ∀ d ∈ mysql_system_databases, d ∉ (["shop"] : List String) :=
  ⟨rfl, c7_denylist_never_enumerated [["information_schema"], ["shop"], ["mysql"]] ["shop"] rfl⟩

/-- C1 counterexample: a model response whose first choice's body is not
valid JSON (so `json.loads` raises) makes question processing end in the
uncaught `JSONDecodeError` fault; the generic "No valid response" message is
not shown, contrary to the claim. -/
theorem c1_counterexample :
    handleQuestion conn0 "MySQL" (some ⟨[⟨none⟩]⟩) = .error .jsonDecodeError := rfl

/-- C1 amended: a missing response or an empty choices list surfaces the
generic "No valid response" error, but a first choice whose body fails JSON
parsing raises an unhandled `JSONDecodeError` out of the question's
processing — `json.loads` at chatdb.py line 176 has no handler. -/
theorem c1_parse_failure_uncaught :
    (∀ (conn : Conn) (dbt : String),
      handleQuestion conn dbt none = .ok [.errorMsg (.str "No valid response")]) ∧
    (∀ (conn : Conn) (dbt : String),
      handleQuestion conn dbt (some ⟨[]⟩) = .ok [.errorMsg (.str "No valid response")]) ∧
    (∀ (conn : Conn) (dbt : String) (rest : List Choice),
      handleQuestion conn dbt (some ⟨⟨none⟩ :: rest⟩) = .error .jsonDecodeError) :=
  ⟨fun _ _ => rfl, fun _ _ => rfl, fun _ _ _ => rfl⟩

/-- C2 counterexample: with every MySQL field filled and the connect attempt
failing, the configuration stage shows the inline connection error but then
ends in the unhandled `Exception("Not connect to any database.")` raised by
`collectDBInfo` on the `None` connection — an unhandled fault does propagate
out of the processing of that configuration, contrary to the claim. -/
theorem c2_counterexample :
    mysqlConfigStage "db.example.com" "3306" none =
      ([.errorMsg (.str "Failed to connect to the database mydb on server db.example.com at port 3306. Please check your network connection and try again.")],
        .error (.exceptionMsg "Not connect to any database.")) := rfl

/-- C2 amended: the connection failure itself is caught inside `connectDB`
and surfaced as a user-visible error message (first conjunct), but the stage
then calls schema introspection with the absent connection, which raises an
unhandled "Not connect to any database." fault (second conjunct). -/
theorem c2_connect_failure_caught_then_introspection_faults (host port : String) :
    connectDB "MySQL" host port none none =
      .ok (none, [.errorMsg (.str ("Failed to connect to the database mydb on server "
        ++ host ++ " at port " ++ port
        ++ ". Please check your network connection and try again."))]) ∧
    mysqlConfigStage host port none =
      ([.errorMsg (.str ("Failed to connect to the database mydb on server "
        ++ host ++ " at port " ++ port
        ++ ". Please check your network connection and try again."))],
        .error (.exceptionMsg "Not connect to any database.")) :=
  ⟨rfl, rfl⟩

/-- C4 counterexample: `diagram_available = 1` is truthy in Python, yet the
renderer takes the scalar-metric branch (the source tests `== "yes" or is
True`, not truthiness), so the claim's "truthy ⟹ chart dispatch" reading is
false at this input. -/
theorem c4_counterexample :
    pythonTruthy (Json.num 1) = true ∧
    renderBlock (.obj [("diagram_available", .num 1)]) (some t42) =
      .ok [.metric "n" "42", .rawData (some t42),
           .gptResponse (.obj [("diagram_available", .num 1)])] :=
  ⟨rfl, rfl⟩

/-- C4 amended: the chart branch is taken exactly when `diagram_available`
equals the string `"yes"` or boolean true (not for every truthy value); in
that branch an unrecognized `diagram_type` renders nothing beyond the two
expanders, a recognized one (here `line`) renders the chart.  Any other
`diagram_available` value takes the metric branch, which formats the first
flattened cell with `f"{...:,}"`: when the cell is numeric so the format
succeeds, exactly one scalar metric shows it (third conjunct); when the cell
is non-numeric the format itself raises out of the branch — ValueError for a
string cell, TypeError for a null or composite one — and no metric is shown
(fourth conjunct).  Both branches, when they succeed, additionally expose
the raw table and the raw model response. -/
theorem c4_renderer_dispatch :
    (∀ (kvs : List (String × Json)) (da dt : Json) (data : Option Table),
      kvs.lookup "diagram_available" = some da →
      (jsonEqStr da "yes" || jsonIsTrue da) = true →
      kvs.lookup "diagram_type" = some dt →
      jsonEqStr dt "line" = false → jsonEqStr dt "bar" = false →
      jsonEqStr dt "pie" = false →
      renderBlock (.obj kvs) data = .ok [.rawData data, .gptResponse (.obj kvs)]) ∧
    (∀ (kvs : List (String × Json)) (da dt : Json) (t : Table)
        (c0 c1 : String) (cs : List String),
      kvs.lookup "diagram_available" = some da →
      (jsonEqStr da "yes" || jsonIsTrue da) = true →
      kvs.lookup "diagram_type" = some dt →
      jsonEqStr dt "line" = true →
      t.columns = c0 :: c1 :: cs →
      renderBlock (.obj kvs) (some t) =
        .ok [.lineChart t c0 c1, .rawData (some t), .gptResponse (.obj kvs)]) ∧
    (∀ (kvs : List (String × Json)) (da : Json) (t : Table)
        (c : String) (cs : List String) (v : Json) (vs : List Json) (fv : String),
      kvs.lookup "diagram_available" = some da →
      (jsonEqStr da "yes" || jsonIsTrue da) = false →
      t.columns = c :: cs → flattenValues t = v :: vs →
      pyFormatComma v = .ok fv →
      renderBlock (.obj kvs) (some t) =
        .ok [.metric c fv, .rawData (some t), .gptResponse (.obj kvs)]) ∧
    (∀ (kvs : List (String × Json)) (da : Json) (t : Table)
        (c : String) (cs : List String) (v : Json) (vs : List Json) (f : Fault),
      kvs.lookup "diagram_available" = some da →
      (jsonEqStr da "yes" || jsonIsTrue da) = false →
      t.columns = c :: cs → flattenValues t = v :: vs →
      pyFormatComma v = .error f →
      renderBlock (.obj kvs) (some t) = .error f) :=
  ⟨fun _ _ _ data hda hcond hdt hl hb hp =>
      renderBlock_unrecognized hda hcond hdt hl hb hp data,
    fun _ _ _ _ _ _ _ hda hcond hdt hl hc =>
      renderBlock_line hda hcond hdt hl hc,
    fun _ _ _ _ _ _ _ _ hda hcond hc hv hf =>
      renderBlock_metric hda hcond hc hv hf,
    fun _ _ _ _ _ _ _ _ hda hcond hc hv hf =>
      renderBlock_metric_format_fault hda hcond hc hv hf⟩

/-- Witness for C4 at the spec's own example: `diagram_available: false` and
the result `[[42]]` produce exactly one metric showing `42`, plus the two
expanders; and with a string first cell the format fault (ValueError)
escapes instead. -/
theorem c4_witness :
    renderBlock (.obj [("diagram_available", .bool false)]) (some t42) =
      .ok [.metric "n" "42", .rawData (some t42),
           .gptResponse (.obj [("diagram_available", .bool false)])] ∧
    renderBlock (.obj [("diagram_available", .bool false)])
        (some ⟨["n"], [[.str "Alice"]]⟩) =
      .error .valueError :=
  ⟨c4_renderer_dispatch.2.2.1 _ _ t42 "n" [] (.num 42) [] "42" rfl rfl rfl rfl rfl,
    c4_renderer_dispatch.2.2.2 _ _ ⟨["n"], [[.str "Alice"]]⟩ "n" [] (.str "Alice") []
      .valueError rfl rfl rfl rfl rfl⟩

/-- C8: with `diagram_type: "pie"` and a two-column result (distinct column
names, each row a pair), the pie chart is built with names taken from column
0 and values taken from column 1. -/
theorem c8_pie_names_from_col0_values_from_col1
    (kvs : List (String × Json)) (da : Json) (t : Table)
    (c0 c1 : String) (pairs : List (Json × Json))
    (hda : kvs.lookup "diagram_available" = some da)
    (hcond : (jsonEqStr da "yes" || jsonIsTrue da) = true)
    (hdt : kvs.lookup "diagram_type" = some (.str "pie"))
    (hc : t.columns = [c0, c1]) (hne : (c0 == c1) = false)
    (hr : t.rows = pairs.map (fun p => [p.1, p.2])) :
    renderBlock (.obj kvs) (some t) =
      .ok [.pieChart (pairs.map Prod.fst) (pairs.map Prod.snd),
           .rawData (some t), .gptResponse (.obj kvs)] := by
  have hne2 : (c1 == c0) = false := by
    cases h0 : c1 == c0
    · rfl
    · rw [eq_of_beq h0] at hne
      simp at hne
  have hl : jsonEqStr (.str "pie") "line" = false := rfl
  have hb : jsonEqStr (.str "pie") "bar" = false := rfl
  have hp : jsonEqStr (.str "pie") "pie" = true := rfl
  simp [renderBlock, dictGet, hda, hcond, hdt, chartFor, hl, hb, hp, colName, hc,
    colValues, List.findIdx?_cons, hne, hne2, hr,
    readColumn_pairs_fst, readColumn_pairs_snd]

/-- Witness for C8 at the spec's own example `[["A",10],["B",20]]`:
names=`["A","B"]`, values=`[10,20]`. -/
theorem c8_witness :
    renderBlock
      (.obj [("diagram_available", .str "yes"), ("diagram_type", .str "pie")])
      (some ⟨["cat", "val"], [[.str "A", .num 10], [.str "B", .num 20]]⟩) =
      .ok [.pieChart [.str "A", .str "B"] [.num 10, .num 20],
           .rawData (some ⟨["cat", "val"], [[.str "A", .num 10], [.str "B", .num 20]]⟩),
           .gptResponse (.obj [("diagram_available", .str "yes"), ("diagram_type", .str "pie")])] :=
  c8_pie_names_from_col0_values_from_col1 _ _ _ "cat" "val"
    [(.str "A", .num 10), (.str "B", .num 20)] rfl rfl rfl rfl rfl rfl

/-- C10: the scalar-metric branch (taken when the chart condition is false)
reads `data.columns[0]` and `data.values.flatten()[0]`: with zero columns, or
with at least one column but zero cells, the access is an IndexError fault —
the metric behaviour is only defined for results with at least one row and
one column.  With at least one column and one cell whose `f"{...:,}"` format
succeeds, it renders the metric on that first cell. -/
theorem c10_metric_requires_nonempty :
    (∀ (kvs : List (String × Json)) (da : Json) (t : Table),
      kvs.lookup "diagram_available" = some da →
      (jsonEqStr da "yes" || jsonIsTrue da) = false →
      t.columns = [] →
      renderBlock (.obj kvs) (some t) = .error .indexError) ∧
    (∀ (kvs : List (String × Json)) (da : Json) (t : Table)
        (c : String) (cs : List String),
      kvs.lookup "diagram_available" = some da →
      (jsonEqStr da "yes" || jsonIsTrue da) = false →
      t.columns = c :: cs → flattenValues t = [] →
      renderBlock (.obj kvs) (some t) = .error .indexError) ∧
    (∀ (kvs : List (String × Json)) (da : Json) (t : Table)
        (c : String) (cs : List String) (v : Json) (vs : List Json) (fv : String),
      kvs.lookup "diagram_available" = some da →
      (jsonEqStr da "yes" || jsonIsTrue da) = false →
      t.columns = c :: cs → flattenValues t = v :: vs →
      pyFormatComma v = .ok fv →
      renderBlock (.obj kvs) (some t) =
        .ok [.metric c fv, .rawData (some t), .gptResponse (.obj kvs)]) :=
  ⟨fun _ _ _ hda hcond hc => renderBlock_metric_no_columns hda hcond hc,
    fun _ _ _ _ _ hda hcond hc hv => renderBlock_metric_no_cells hda hcond hc hv,
    fun _ _ _ _ _ _ _ _ hda hcond hc hv hf => renderBlock_metric hda hcond hc hv hf⟩

/-- Witness for C10: an empty result (no rows) under the metric branch
faults with IndexError, while the one-cell result renders the metric. -/
theorem c10_witness :
    renderBlock (.obj [("diagram_available", .bool false)]) (some ⟨["a"], []⟩) =
      .error .indexError :=
  c10_metric_requires_nonempty.2.1 _ _ ⟨["a"], []⟩ "a" [] rfl rfl rfl rfl

/-- C9: schema introspection is deterministic in its inputs.  Running
`collectDBInfo` a second time, starting from the connection exactly as the
first run left it (its statements are read-only: only the session's current
database moves), yields byte-identical schema text — stated for both backends
and also propagating any failure identically. -/
theorem c9_introspection_idempotent (conn : Option Conn)
    (db_type bigquery_dataset : String) (bigquery_tables : List String) :
    ((collectDBInfo conn db_type bigquery_dataset bigquery_tables).bind
        (fun p => collectDBInfo p.2 db_type bigquery_dataset bigquery_tables)).map Prod.fst
      = (collectDBInfo conn db_type bigquery_dataset bigquery_tables).map Prod.fst := by
  cases hd : db_type == "BigQuery" with
  | true =>
    cases conn with
    | none => simp [collectDBInfo, hd, Except.bind, Except.map]
    | some c =>
      cases c with
      | mysql st dq => simp [collectDBInfo, hd, Except.bind, Except.map]
      | bigquery bc =>
        cases hb : collectBigQueryTableInfo bc bigquery_dataset bigquery_tables with
        | error f => simp [collectDBInfo, hd, hb, Except.bind, Except.map]
        | ok s => simp [collectDBInfo, hd, hb, Except.bind, Except.map]
  | false =>
    cases conn with
    | none => simp [collectDBInfo, hd, Except.bind, Except.map]
    | some c =>
      cases c with
      | bigquery bc => simp [collectDBInfo, hd, Except.bind, Except.map]
      | mysql st dq =>
        cases hm : collectDBInfoMySQL st with
        | error f => simp [collectDBInfo, hd, hm, Except.bind, Except.map]
        | ok p =>
          obtain ⟨o, st1⟩ := p
          have h2 : (collectDBInfoMySQL st1).map Prod.fst
              = (collectDBInfoMySQL st).map Prod.fst :=
            collectDBInfoMySQL_map_fst (collectDBInfoMySQL_databases hm)
          cases hx : collectDBInfoMySQL st1 with
          | error f =>
            rw [hm, hx] at h2
            simp [Except.map] at h2
          | ok q =>
            obtain ⟨o2, st2⟩ := q
            rw [hm, hx] at h2
            simp only [Except.map, Except.ok.injEq] at h2
            simp [collectDBInfo, hd, hm, hx, Except.bind, Except.map, h2]

end ChatDB
